import Mathlib

/-! ## ddstats-server: the HTTP handlers and the player model

A shallow embedding of `pkg/api/handlers.go` (serveWebsocket, playerLive,
getPlayers, getPlayer) and of `pkg/models/postgres/player.go` (Get, GetAll,
GetTotalCount).

A handler is a function from the request and from the answers of the
collaborators it calls (the websocket upgrader, the hub, the SQL driver) to
the list of effects it performs, in program order.  Go's `int` is an `Int`
wrapped to `intSize` bits, `intSize` being `strconv.IntSize` of the target.
A Go slice that may be nil is an `Option (List α)`, a nil-able pointer an
`Option α`, and a `(value, error)` result a pair whose second component is an
`Option GoError`.
-/

namespace DDStats

/-! ## Go runtime pieces the handlers rely on -/

/-- Error values as the handlers see them: the sentinels `sql.ErrNoRows` and
`models.ErrNoRecord`, any other error, and an error that wraps another one. -/
inductive GoError where
  | sqlErrNoRows
  | modelsErrNoRecord
  | other (msg : String)
  | wrap (msg : String) (inner : GoError)
  deriving DecidableEq, Repr

/-- The function `errors.Is`: `err` is `target`, or wraps an error that is. -/
def errorsIs : GoError → GoError → Bool
  | .wrap msg inner, target => decide (GoError.wrap msg inner = target) || errorsIs inner target
  | err, target => decide (err = target)

/-- Largest value of a Go `int` of `intSize` bits. -/
def maxInt (intSize : Nat) : Int := 2 ^ (intSize - 1) - 1

/-- Smallest value of a Go `int` of `intSize` bits. -/
def minInt (intSize : Nat) : Int := -(2 ^ (intSize - 1))

/-- Two's complement wrap-around of an exact integer to `intSize` bits: what
Go's `int` arithmetic keeps of a result. -/
def wrapInt (intSize : Nat) (x : Int) : Int :=
  (x + 2 ^ (intSize - 1)) % 2 ^ intSize - 2 ^ (intSize - 1)

/-- Value of a run of decimal digits, as the loop `n = n*10 + int(ch - '0')`. -/
def digitsValue (ds : List Char) : Nat :=
  ds.foldl (fun n ch => n * 10 + (ch.toNat - '0'.toNat)) 0

/-- The function `strconv.Atoi` of the Go standard library: an optional sign
followed by at least one decimal digit and nothing else, whose value fits an
`int`; `none` stands for a non-nil error (syntax or range). -/
def Atoi (intSize : Nat) (s : String) : Option Int :=
  let signed : Bool × List Char :=
    match s.toList with
    | '-' :: rest => (true, rest)
    | '+' :: rest => (false, rest)
    | cs => (false, cs)
  if signed.2.isEmpty || !(signed.2.all Char.isDigit) then none
  else
    let n : Int := (digitsValue signed.2 : Nat)
    let v : Int := if signed.1 then -n else n
    if minInt intSize ≤ v ∧ v ≤ maxInt intSize then some v else none

/-- A slice that may be nil. -/
abbrev Slice (α : Type) := Option (List α)

/-- The builtin `len`: a nil slice has length 0. -/
def len {α : Type} : Slice α → Int
  | none => 0
  | some xs => (xs.length : Nat)

/-- The type `url.Values`: a map from a key to the list of its values, here an
association list read at its first matching entry. -/
structure Values where
  entries : List (String × List String)
  deriving DecidableEq, Repr

/-- The map index `v[key]` with its `ok` flag. -/
def Values.index (v : Values) (key : String) : Option (List String) :=
  v.entries.lookup key

/-- The method `Values.Get`: the first value of the key, or the empty string. -/
def Values.Get (v : Values) (key : String) : String :=
  match v.index key with
  | some (first :: _) => first
  | _ => ""

/-- The parts of an `http.Request` a handler could look at; `URLQuery` is the
result of `r.URL.Query()`. -/
structure Request where
  Method : String
  URLQuery : Values
  Header : Values
  RemoteAddr : String
  Body : String
  deriving DecidableEq, Repr

/-! ## Types of the packages websocket and models -/

namespace websocket

/-- An upgraded websocket connection, known by its identity only. -/
structure Conn where
  id : Nat
  deriving DecidableEq, Repr

/-- The hub, known by its identity only. -/
structure Hub where
  id : Nat
  deriving DecidableEq, Repr

/-- A live player entry, relayed as it is. -/
structure Player where
  ref : Nat
  deriving DecidableEq, Repr

/-- The struct `websocket.Client`, with the fields serveWebsocket sets. -/
structure Client where
  Conn : Conn
  Hub : Hub
  Room : String
  deriving DecidableEq, Repr

end websocket

namespace models

/-- A row of the table `player`, relayed as it is. -/
structure Player where
  row : Nat
  deriving DecidableEq, Repr

end models

/-! ## Effects of a handler -/

/-- A message handed to `clientMessage`: a literal, or `err.Error()`. -/
inductive Msg where
  | text (s : String)
  | errorText (err : GoError)
  deriving DecidableEq, Repr

/-- The anonymous struct getPlayers writes. -/
structure PlayersPage where
  TotalPages : Int
  TotalPlayerCount : Int
  PageNumber : Int
  PageSize : Int
  PlayerCount : Int
  Players : Slice models.Player
  deriving DecidableEq, Repr

/-- A value handed to `writeJSON`. `live` is the anonymous struct of
playerLive, with the fields `player_count` and `players`. -/
inductive Payload where
  | live (PlayerCount : Int) (Players : Slice websocket.Player)
  | page (p : PlayersPage)
  | player (p : Option models.Player)
  deriving DecidableEq, Repr

/-- One effect of a handler. -/
inductive Event where
  /-- Call of `fmt.Println(s)`. -/
  | println (s : String)
  /-- Call of `api.clientError(w, status)`. -/
  | clientError (status : Nat)
  /-- Call of `api.clientMessage(w, status, msg)`. -/
  | clientMessage (status : Nat) (msg : Msg)
  /-- Call of `api.serverError(w, err)`. -/
  | serverError (err : GoError)
  /-- Call of `api.writeJSON(w, v)`. -/
  | writeJSON (v : Payload)
  /-- Call of `fmt.Fprintf(w, "%+v", err)`. -/
  | fprintf (err : GoError)
  /-- Call of `websocket.Upgrade(w, r)`. -/
  | upgrade
  /-- Send `hub.Register <- client`. -/
  | register (client : websocket.Client)
  /-- Call of `client.Read()`. -/
  | read (client : websocket.Client)
  /-- Call of `hub.LivePlayers()`. -/
  | livePlayers
  /-- Call of `DB.Get(&player, stmt, id)`. -/
  | dbGet (stmt : String) (id : Int)
  /-- Call of `DB.Select(&players, stmt)`. -/
  | dbSelect (stmt : String)
  /-- Call of `DB.QueryRow(stmt).Scan(&count)`. -/
  | dbQueryRow (stmt : String)
  deriving DecidableEq, Repr

/-- Whether the effect is a send on `Register`. -/
def Event.isRegister : Event → Bool
  | .register _ => true
  | _ => false

/-- Whether the effect is a call of `client.Read()`. -/
def Event.isRead : Event → Bool
  | .read _ => true
  | _ => false

/-- Whether the effect is a call of the SQL driver. -/
def Event.touchesDB : Event → Bool
  | .dbGet _ _ => true
  | .dbSelect _ => true
  | .dbQueryRow _ => true
  | _ => false

/-- Modelled from the spec: the response helpers clientError, clientMessage,
serverError and writeJSON live in a file that is not under src/. The first two
answer with the status they are handed, serverError answers 500 (internal
server error) and writeJSON answers 200. -/
def Event.status : Event → Option Nat
  | .clientError status => some status
  | .clientMessage status _ => some status
  | .serverError _ => some 500
  | .writeJSON _ => some 200
  | _ => none

/-- The hub state after the effects of a handler: the hub is reached through
the send on `Register` and through `client.Read()` only, whatever these two do
to it. -/
def hubAfter {H : Type} (onRegister onRead : websocket.Client → H → H) :
    List Event → H → H
  | [], h => h
  | .register c :: rest, h => hubAfter onRegister onRead rest (onRegister c h)
  | .read c :: rest, h => hubAfter onRegister onRead rest (onRead c h)
  | _ :: rest, h => hubAfter onRegister onRead rest h

/-! ## pkg/api/api.go -/

/-- The driver beneath the models: what each call answers. `Get` gives the
scanned row and the error, `Select` the filled slice and the error,
`QueryRowScan` the scanned count and the error. -/
structure DB where
  Get : String → Int → models.Player × Option GoError
  Select : String → Slice models.Player × Option GoError
  QueryRowScan : String → Int × Option GoError

/-- The struct `PlayerModel`. -/
structure PlayerModel where
  DB : DB

/-- The struct `Postgres`, with the model the handlers below use. -/
structure Postgres where
  Players : PlayerModel

/-- The struct `API`, with the fields the handlers below use. -/
structure API where
  db : Postgres
  websocketHub : websocket.Hub

/-! ## pkg/api/handlers.go: the websocket endpoints -/

/-- The handler `serveWebsocket`. `Upgrade` is the answer of
`websocket.Upgrade(w, r)`. -/
def serveWebsocket (api : API) (Upgrade : Request → Except GoError websocket.Conn)
    (r : Request) : List Event :=
  Event.println "WebSocket endpoint hit" ::
  match r.URLQuery.index "room" with
  | none => [Event.clientError 404]
  | some _ =>
    let room := r.URLQuery.Get "room"
    Event.upgrade ::
    match Upgrade r with
    | .error err => [Event.fprintf err]
    | .ok conn =>
      let client : websocket.Client := { Conn := conn, Hub := api.websocketHub, Room := room }
      [Event.register client, Event.read client]

/-- The handler `playerLive`. `LivePlayers` is the answer of
`api.websocketHub.LivePlayers()`. -/
def playerLive (LivePlayers : Slice websocket.Player) : List Event :=
  let players := LivePlayers
  [Event.livePlayers, Event.writeJSON (Payload.live (len players) players)]

/-! ## pkg/models/postgres/player.go -/

/-- The method `PlayerModel.Get`: its effects and its `(player, error)` result. -/
def PlayerModel.Get (p : PlayerModel) (id : Int) :
    List Event × (Option models.Player × Option GoError) :=
  let stmt := "SELECT * FROM player WHERE id=$1"
  let got := p.DB.Get stmt id
  ([Event.dbGet stmt id],
    match got.2 with
    | some err =>
      if errorsIs err GoError.sqlErrNoRows then (none, some GoError.modelsErrNoRecord)
      else (none, some err)
    | none => (some got.1, none))

/-- The call `fmt.Sprintf` of GetAll: its format string filled with the two
`%d` arguments. -/
def sprintfLimitOffset (limit offset : Int) : String :=
  "SELECT * FROM player WHERE id<>-1 ORDER BY game_time DESC LIMIT " ++ toString limit ++
    " OFFSET " ++ toString offset

/-- The second `%d` argument of GetAll, `(pageNum-1)*pageSize` in Go's `int`
arithmetic. -/
def GetAllOffset (intSize : Nat) (pageSize pageNum : Int) : Int :=
  wrapInt intSize (wrapInt intSize (pageNum - 1) * pageSize)

/-- The statement GetAll hands to the driver. -/
def GetAllStmt (intSize : Nat) (pageSize pageNum : Int) : String :=
  sprintfLimitOffset pageSize (GetAllOffset intSize pageSize pageNum)

/-- The method `PlayerModel.GetAll`: its effects and its `(players, error)`
result. -/
def PlayerModel.GetAll (intSize : Nat) (p : PlayerModel) (pageSize pageNum : Int) :
    List Event × (Slice models.Player × Option GoError) :=
  let stmt := GetAllStmt intSize pageSize pageNum
  let got := p.DB.Select stmt
  ([Event.dbSelect stmt],
    match got.2 with
    | some err =>
      if errorsIs err GoError.sqlErrNoRows then (none, some GoError.modelsErrNoRecord)
      else (none, some err)
    | none => (got.1, none))

/-- The method `PlayerModel.GetTotalCount`: its effects and its
`(count, error)` result. -/
def PlayerModel.GetTotalCount (p : PlayerModel) : List Event × (Int × Option GoError) :=
  let stmt := "SELECT COUNT(1) FROM player WHERE id<>-1"
  let got := p.DB.QueryRowScan stmt
  ([Event.dbQueryRow stmt],
    match got.2 with
    | some err => (0, some err)
    | none => (got.1, none))

/-! ## pkg/api/handlers.go: the player endpoints -/

/-- The handler `getPlayers`. `ceilQuotient a b` is the answer of
`int(math.Ceil(float64(a) / float64(b)))`. -/
def getPlayers (intSize : Nat) (api : API) (ceilQuotient : Int → Int → Int)
    (r : Request) : List Event :=
  match Atoi intSize (r.URLQuery.Get "page_size") with
  | none => [Event.clientMessage 400 (Msg.text "page_size must be an integer")]
  | some pageSize =>
    if pageSize < 1 || pageSize > 100 then
      [Event.clientMessage 400 (Msg.text "page_size must be between 1 and 100")]
    else
      match Atoi intSize (r.URLQuery.Get "page_num") with
      | none => [Event.clientMessage 400 (Msg.text "page_num must be an integer")]
      | some pageNum =>
        if pageNum < 1 then
          [Event.clientMessage 400 (Msg.text "page_num must be greater than 0")]
        else
          let all := api.db.Players.GetAll intSize pageSize pageNum
          all.1 ++
          match all.2.2 with
          | some err => [Event.serverError err]
          | none =>
            match all.2.1 with
            | none => [Event.clientMessage 404 (Msg.text "no records found in this range")]
            | some players =>
              let total := api.db.Players.GetTotalCount
              total.1 ++
              match total.2.2 with
              | some err => [Event.serverError err]
              | none =>
                [Event.writeJSON (Payload.page
                  { TotalPages := ceilQuotient total.2.1 pageSize
                    TotalPlayerCount := total.2.1
                    PageNumber := pageNum
                    PageSize := pageSize
                    PlayerCount := len (some players)
                    Players := some players })]

/-- The handler `getPlayer`. -/
def getPlayer (intSize : Nat) (api : API) (r : Request) : List Event :=
  match Atoi intSize (r.URLQuery.Get "id") with
  | none => [Event.clientError 400]
  | some id =>
    if id < 1 then [Event.clientError 400]
    else
      let got := api.db.Players.Get id
      got.1 ++
      match got.2.2 with
      | some err =>
        if errorsIs err GoError.modelsErrNoRecord then
          [Event.clientMessage 404 (Msg.errorText err)]
        else [Event.serverError err]
      | none => [Event.writeJSON (Payload.player got.2.1)]

/-! ## Fixtures for the concrete runs -/

/-- A driver that finds the row 1 for every id, two rows for every page and a
total of 2. -/
def sampleDB : DB :=
  { Get := fun _ _ => (models.Player.mk 1, none)
    Select := fun _ => (some [models.Player.mk 1, models.Player.mk 2], none)
    QueryRowScan := fun _ => (2, none) }

/-- A driver that finds no row. -/
def emptyDB : DB :=
  { Get := fun _ _ => (models.Player.mk 0, some GoError.sqlErrNoRows)
    Select := fun _ => (none, some GoError.sqlErrNoRows)
    QueryRowScan := fun _ => (0, none) }

/-- An API over the given driver, with hub 7. -/
def sampleAPI (db : DB) : API :=
  { db := { Players := { DB := db } }, websocketHub := websocket.Hub.mk 7 }

/-- A GET request with the given query values. -/
def sampleRequest (query : List (String × List String)) : Request :=
  { Method := "GET", URLQuery := Values.mk query, Header := Values.mk [],
    RemoteAddr := "203.0.113.9:4711", Body := "" }

/-- Exact ceiling of a quotient, standing for the float computation in the
concrete runs. -/
def sampleCeil (a b : Int) : Int := (a + b - 1) / b

/-! ## Lemmas on Go's int arithmetic -/

theorem wrapInt_of_fits (intSize : Nat) (x : Int) (hw : 0 < intSize)
    (hlo : minInt intSize ≤ x) (hhi : x ≤ maxInt intSize) : wrapInt intSize x = x := by
  obtain ⟨k, rfl⟩ : ∃ k, intSize = k + 1 := ⟨intSize - 1, by omega⟩
  simp only [minInt, maxInt, wrapInt, Nat.add_sub_cancel] at *
  have hpos : (0 : Int) < 2 ^ k := by positivity
  have h2 : (2 : Int) ^ (k + 1) = 2 * 2 ^ k := by rw [pow_succ]; ring
  rw [h2, Int.emod_eq_of_lt (by linarith) (by linarith)]
  ring

theorem GetAllOffset_of_fits (intSize : Nat) (pageSize pageNum : Int) (hw : 0 < intSize)
    (hs : 1 ≤ pageSize) (hn : 1 ≤ pageNum)
    (hfit : (pageNum - 1) * pageSize ≤ maxInt intSize) :
    GetAllOffset intSize pageSize pageNum = (pageNum - 1) * pageSize := by
  have hmin : minInt intSize ≤ 0 := by
    have : (0 : Int) < 2 ^ (intSize - 1) := by positivity
    simp only [minInt]; linarith
  have h0 : 0 ≤ pageNum - 1 := by linarith
  have hprod : pageNum - 1 ≤ (pageNum - 1) * pageSize := by nlinarith
  have hprod0 : 0 ≤ (pageNum - 1) * pageSize := by nlinarith
  unfold GetAllOffset
  rw [wrapInt_of_fits intSize (pageNum - 1) hw (by linarith) (by linarith)]
  exact wrapInt_of_fits intSize _ hw (by linarith) hfit

/-! ## The websocket endpoints -/

/-- C1: a request whose query has no `room` key gets `clientError` with status
404 and nothing else: `websocket.Upgrade` is not called, nothing is sent on
`Register` and `client.Read()` is not called. -/
theorem serveWebsocket_room_absent (api : API)
    (Upgrade : Request → Except GoError websocket.Conn) (r : Request)
    (hroom : r.URLQuery.index "room" = none) :
    serveWebsocket api Upgrade r =
        [Event.println "WebSocket endpoint hit", Event.clientError 404] ∧
      (serveWebsocket api Upgrade r).filterMap Event.status = [404] ∧
      Event.upgrade ∉ serveWebsocket api Upgrade r ∧
      (∀ c, Event.register c ∉ serveWebsocket api Upgrade r) ∧
      (∀ c, Event.read c ∉ serveWebsocket api Upgrade r) := by
  have htrace : serveWebsocket api Upgrade r =
      [Event.println "WebSocket endpoint hit", Event.clientError 404] := by
    simp [serveWebsocket, hroom]
  rw [htrace]
  simp [Event.status]

/-- A run of C1: a query with the key `lobby` only. -/
theorem serveWebsocket_room_absent_witness :
    (sampleRequest [("lobby", ["r1"])]).URLQuery.index "room" = none ∧
      serveWebsocket (sampleAPI sampleDB) (fun _ => Except.ok (websocket.Conn.mk 3))
          (sampleRequest [("lobby", ["r1"])]) =
        [Event.println "WebSocket endpoint hit", Event.clientError 404] :=
  ⟨by decide,
    (serveWebsocket_room_absent (sampleAPI sampleDB) (fun _ => Except.ok (websocket.Conn.mk 3))
      (sampleRequest [("lobby", ["r1"])]) (by decide)).1⟩

/-- C2: a request whose query has a `room` key, with any list of values, and
whose upgrade succeeds performs exactly the upgrade, one send on `Register` and
then `client.Read()`, both with the client made of the upgraded connection, the
hub of the API and the room `Get("room")`, which is the first value of the key
when it has one; nothing else in the request is looked at. -/
theorem serveWebsocket_joins (api : API)
    (Upgrade : Request → Except GoError websocket.Conn) (r : Request)
    (vs : List String) (conn : websocket.Conn)
    (hroom : r.URLQuery.index "room" = some vs) (hup : Upgrade r = Except.ok conn) :
    serveWebsocket api Upgrade r =
        [Event.println "WebSocket endpoint hit", Event.upgrade,
          Event.register (websocket.Client.mk conn api.websocketHub (r.URLQuery.Get "room")),
          Event.read (websocket.Client.mk conn api.websocketHub (r.URLQuery.Get "room"))] ∧
      (serveWebsocket api Upgrade r).filter Event.isRegister =
        [Event.register (websocket.Client.mk conn api.websocketHub (r.URLQuery.Get "room"))] ∧
      (serveWebsocket api Upgrade r).indexOf
          (Event.register (websocket.Client.mk conn api.websocketHub (r.URLQuery.Get "room"))) <
        (serveWebsocket api Upgrade r).indexOf
          (Event.read (websocket.Client.mk conn api.websocketHub (r.URLQuery.Get "room"))) ∧
      (∀ first rest, vs = first :: rest → r.URLQuery.Get "room" = first) ∧
      (vs = [] → r.URLQuery.Get "room" = "") := by
  have htrace : serveWebsocket api Upgrade r =
      [Event.println "WebSocket endpoint hit", Event.upgrade,
        Event.register (websocket.Client.mk conn api.websocketHub (r.URLQuery.Get "room")),
        Event.read (websocket.Client.mk conn api.websocketHub (r.URLQuery.Get "room"))] := by
    simp [serveWebsocket, hroom, hup]
  refine ⟨htrace, ?_, ?_, ?_, ?_⟩
  · rw [htrace]; simp [List.filter, Event.isRegister]
  · rw [htrace]; simp [List.indexOf_cons]
  · intro first rest hvs
    simp [Values.Get, hroom, hvs]
  · intro hvs
    simp [Values.Get, hroom, hvs]

/-- A run of C2: the key `room` with an empty first value. -/
theorem serveWebsocket_joins_witness :
    (sampleRequest [("room", ["", "r2"])]).URLQuery.index "room" = some ["", "r2"] ∧
    serveWebsocket (sampleAPI sampleDB) (fun _ => Except.ok (websocket.Conn.mk 3))
        (sampleRequest [("room", ["", "r2"])]) =
      [Event.println "WebSocket endpoint hit", Event.upgrade,
        Event.register (websocket.Client.mk (websocket.Conn.mk 3) (websocket.Hub.mk 7) ""),
        Event.read (websocket.Client.mk (websocket.Conn.mk 3) (websocket.Hub.mk 7) "")] :=
  ⟨by decide,
    (serveWebsocket_joins (sampleAPI sampleDB) (fun _ => Except.ok (websocket.Conn.mk 3))
      (sampleRequest [("room", ["", "r2"])]) ["", "r2"] (websocket.Conn.mk 3)
      (by decide) rfl).1⟩

/-- C3: playerLive hands `writeJSON` the struct whose `player_count` is the
length of the slice `LivePlayers()` returned and whose `players` is that slice
itself, elements and order untouched; an empty or nil snapshot gives
`player_count` 0. -/
theorem playerLive_relays (players : Slice websocket.Player) (xs : List websocket.Player) :
    playerLive players =
        [Event.livePlayers, Event.writeJSON (Payload.live (len players) players)] ∧
      playerLive (some xs) =
        [Event.livePlayers, Event.writeJSON (Payload.live (xs.length : Nat) (some xs))] ∧
      playerLive (some []) = [Event.livePlayers, Event.writeJSON (Payload.live 0 (some []))] ∧
      playerLive none = [Event.livePlayers, Event.writeJSON (Payload.live 0 none)] := by
  refine ⟨rfl, rfl, rfl, rfl⟩

/-- C4: when `websocket.Upgrade` returns an error the handler sends nothing on
`Register` and never calls `client.Read()`, so the hub is left as it was; the
request having a `room` key, all it does is print, try the upgrade and write
the error. -/
theorem serveWebsocket_upgrade_fails (api : API)
    (Upgrade : Request → Except GoError websocket.Conn) (r : Request) (err : GoError)
    (hup : Upgrade r = Except.error err) :
    (∀ ev ∈ serveWebsocket api Upgrade r, ev.isRegister = false ∧ ev.isRead = false) ∧
      (∀ (H : Type) (onRegister onRead : websocket.Client → H → H) (h : H),
        hubAfter onRegister onRead (serveWebsocket api Upgrade r) h = h) ∧
      (∀ vs, r.URLQuery.index "room" = some vs →
        serveWebsocket api Upgrade r =
          [Event.println "WebSocket endpoint hit", Event.upgrade, Event.fprintf err]) := by
  cases hroom : r.URLQuery.index "room" with
  | none =>
    have htrace : serveWebsocket api Upgrade r =
        [Event.println "WebSocket endpoint hit", Event.clientError 404] := by
      simp [serveWebsocket, hroom]
    rw [htrace]
    simp [Event.isRegister, Event.isRead, hubAfter]
  | some vs =>
    have htrace : serveWebsocket api Upgrade r =
        [Event.println "WebSocket endpoint hit", Event.upgrade, Event.fprintf err] := by
      simp [serveWebsocket, hroom, hup]
    rw [htrace]
    simp [Event.isRegister, Event.isRead, hubAfter]

/-- A run of C4: the upgrade fails on a bad handshake. -/
theorem serveWebsocket_upgrade_fails_witness :
    (sampleRequest [("room", ["r1"])]).URLQuery.index "room" = some ["r1"] ∧
    serveWebsocket (sampleAPI sampleDB) (fun _ => Except.error (GoError.other "bad handshake"))
        (sampleRequest [("room", ["r1"])]) =
      [Event.println "WebSocket endpoint hit", Event.upgrade,
        Event.fprintf (GoError.other "bad handshake")] :=
  ⟨by decide,
    (serveWebsocket_upgrade_fails (sampleAPI sampleDB)
      (fun _ => Except.error (GoError.other "bad handshake"))
      (sampleRequest [("room", ["r1"])]) (GoError.other "bad handshake") rfl).2.2 ["r1"]
      (by decide)⟩

/-! ## Paging -/

/-- C5, as stated, fails on 64-bit `int`: getPlayers admits `page_size=100` and
`page_num=92233720368547760`, for which `(pageNum-1)*pageSize` wraps around and
the statement handed to the driver has the negative offset
-9223372036854775716 and not 9223372036854775900. -/
theorem GetAll_offset_wraps :
    Atoi 64 "100" = some 100 ∧
      Atoi 64 "92233720368547760" = some 92233720368547760 ∧
      (1 : Int) ≤ 92233720368547760 ∧ (92233720368547760 : Int) ≤ maxInt 64 ∧
      GetAllOffset 64 100 92233720368547760 = -9223372036854775716 ∧
      GetAllOffset 64 100 92233720368547760 ≠ (92233720368547760 - 1) * 100 ∧
      (getPlayers 64 (sampleAPI sampleDB) sampleCeil
          (sampleRequest [("page_size", ["100"]), ("page_num", ["92233720368547760"])])).head? =
        some (Event.dbSelect
          "SELECT * FROM player WHERE id<>-1 ORDER BY game_time DESC LIMIT 100 OFFSET -9223372036854775716") := by
  refine ⟨by decide, by decide, by decide, by decide, by decide, by decide, by decide⟩

/-- C5, amended: for every pageSize in 1..100 and every pageNum >= 1 such that
`(pageNum-1)*pageSize` fits Go's `int`, the statement GetAll hands to the
driver has LIMIT pageSize and OFFSET the exact, non-negative
`(pageNum-1)*pageSize`; page 1 starts at row 0 and, when the offset of page
pageNum+1 fits too, that page starts exactly pageSize rows after page
pageNum. -/
theorem GetAll_offset_exact (intSize : Nat) (p : PlayerModel) (pageSize pageNum : Int)
    (hw : 0 < intSize) (hs1 : 1 ≤ pageSize) (_hs2 : pageSize ≤ 100) (hn : 1 ≤ pageNum)
    (hfit : (pageNum - 1) * pageSize ≤ maxInt intSize) :
    (p.GetAll intSize pageSize pageNum).1 =
        [Event.dbSelect (sprintfLimitOffset pageSize ((pageNum - 1) * pageSize))] ∧
      GetAllStmt intSize pageSize pageNum =
        sprintfLimitOffset pageSize ((pageNum - 1) * pageSize) ∧
      GetAllOffset intSize pageSize pageNum = (pageNum - 1) * pageSize ∧
      0 ≤ GetAllOffset intSize pageSize pageNum ∧
      GetAllOffset intSize pageSize 1 = 0 ∧
      (pageNum * pageSize ≤ maxInt intSize →
        GetAllOffset intSize pageSize (pageNum + 1) =
          GetAllOffset intSize pageSize pageNum + pageSize) := by
  have hoff := GetAllOffset_of_fits intSize pageSize pageNum hw hs1 hn hfit
  have hmax : 0 ≤ maxInt intSize := by
    have : (0 : Int) < 2 ^ (intSize - 1) := by positivity
    simp only [maxInt]; linarith
  have hone := GetAllOffset_of_fits intSize pageSize 1 hw hs1 le_rfl (by simpa using hmax)
  have hstmt : GetAllStmt intSize pageSize pageNum =
      sprintfLimitOffset pageSize ((pageNum - 1) * pageSize) := by
    simp only [GetAllStmt, hoff]
  refine ⟨?_, hstmt, hoff, ?_, ?_, ?_⟩
  · simp only [PlayerModel.GetAll, hstmt]
  · rw [hoff]; nlinarith
  · simpa using hone
  · intro hnext
    have hsucc := GetAllOffset_of_fits intSize pageSize (pageNum + 1) hw hs1 (by linarith)
      (by simpa using hnext)
    rw [hsucc, hoff]; ring

/-- A run of the amended C5: page 3 of pages of 25 rows. -/
theorem GetAll_offset_exact_witness :
    (0 < 64) ∧ (1 : Int) ≤ 25 ∧ (25 : Int) ≤ 100 ∧ (1 : Int) ≤ 3 ∧
      ((3 : Int) - 1) * 25 ≤ maxInt 64 ∧
      GetAllStmt 64 25 3 = sprintfLimitOffset 25 ((3 - 1) * 25) :=
  ⟨by decide, by decide, by decide, by decide, by decide,
    (GetAll_offset_exact 64 (PlayerModel.mk sampleDB) 25 3 (by decide) (by decide) (by decide)
      (by decide) (by decide)).2.1⟩

/-! ## Validation in getPlayers -/

/-- C6: getPlayers reaches `Players.GetAll` (the only caller of `DB.Select`)
exactly when `page_size` parses to an integer in 1..100 and `page_num` parses
to an integer >= 1, and then GetAll is its first effect, with these two
numbers; otherwise its only effect is `clientMessage` with status 400, the
database untouched, and the message is, in this order: page_size not an
integer, page_size out of range, page_num not an integer, page_num < 1. -/
theorem getPlayers_validation (intSize : Nat) (api : API) (ceilQuotient : Int → Int → Int)
    (r : Request) :
    ((∃ stmt, Event.dbSelect stmt ∈ getPlayers intSize api ceilQuotient r) ↔
        ∃ pageSize pageNum,
          Atoi intSize (r.URLQuery.Get "page_size") = some pageSize ∧
            1 ≤ pageSize ∧ pageSize ≤ 100 ∧
            Atoi intSize (r.URLQuery.Get "page_num") = some pageNum ∧ 1 ≤ pageNum) ∧
      (∀ pageSize pageNum,
        Atoi intSize (r.URLQuery.Get "page_size") = some pageSize →
        1 ≤ pageSize → pageSize ≤ 100 →
        Atoi intSize (r.URLQuery.Get "page_num") = some pageNum → 1 ≤ pageNum →
        (api.db.Players.GetAll intSize pageSize pageNum).1 <+:
          getPlayers intSize api ceilQuotient r) ∧
      (Atoi intSize (r.URLQuery.Get "page_size") = none →
        getPlayers intSize api ceilQuotient r =
          [Event.clientMessage 400 (Msg.text "page_size must be an integer")]) ∧
      (∀ pageSize,
        Atoi intSize (r.URLQuery.Get "page_size") = some pageSize →
        (pageSize < 1 ∨ 100 < pageSize) →
        getPlayers intSize api ceilQuotient r =
          [Event.clientMessage 400 (Msg.text "page_size must be between 1 and 100")]) ∧
      (∀ pageSize,
        Atoi intSize (r.URLQuery.Get "page_size") = some pageSize →
        1 ≤ pageSize → pageSize ≤ 100 →
        Atoi intSize (r.URLQuery.Get "page_num") = none →
        getPlayers intSize api ceilQuotient r =
          [Event.clientMessage 400 (Msg.text "page_num must be an integer")]) ∧
      (∀ pageSize pageNum,
        Atoi intSize (r.URLQuery.Get "page_size") = some pageSize →
        1 ≤ pageSize → pageSize ≤ 100 →
        Atoi intSize (r.URLQuery.Get "page_num") = some pageNum → pageNum < 1 →
        getPlayers intSize api ceilQuotient r =
          [Event.clientMessage 400 (Msg.text "page_num must be greater than 0")]) ∧
      ((¬ ∃ pageSize pageNum,
          Atoi intSize (r.URLQuery.Get "page_size") = some pageSize ∧
            1 ≤ pageSize ∧ pageSize ≤ 100 ∧
            Atoi intSize (r.URLQuery.Get "page_num") = some pageNum ∧ 1 ≤ pageNum) →
        (getPlayers intSize api ceilQuotient r).filterMap Event.status = [400] ∧
          ∀ ev ∈ getPlayers intSize api ceilQuotient r, ev.touchesDB = false) := by
  cases hps : Atoi intSize (r.URLQuery.Get "page_size") with
  | none =>
    simp [getPlayers, hps, Event.status, Event.touchesDB]
  | some pageSize =>
    by_cases hrange : pageSize < 1 ∨ 100 < pageSize
    · have htrace : getPlayers intSize api ceilQuotient r =
          [Event.clientMessage 400 (Msg.text "page_size must be between 1 and 100")] := by
        simp [getPlayers, hps, hrange]
      rw [htrace]
      refine ⟨⟨?_, ?_⟩, ?_, ?_, ?_, ?_, ?_, ?_⟩
      · rintro ⟨stmt, hmem⟩; simp at hmem
      · rintro ⟨a, b, ha, h1, h2, -, -⟩; cases ha; omega
      · intro a b ha h1 h2; cases ha; omega
      · intro h; cases h
      · intro a _ _; rfl
      · intro a ha h1 h2; cases ha; omega
      · intro a b ha h1 h2; cases ha; omega
      · intro _; simp [Event.status, Event.touchesDB]
    · have hin : 1 ≤ pageSize ∧ pageSize ≤ 100 := by omega
      have hif : (decide (pageSize < 1) || decide (pageSize > 100)) = false := by
        simp; omega
      cases hpn : Atoi intSize (r.URLQuery.Get "page_num") with
      | none =>
        have htrace : getPlayers intSize api ceilQuotient r =
            [Event.clientMessage 400 (Msg.text "page_num must be an integer")] := by
          simp [getPlayers, hps, hpn, hif]
        rw [htrace]
        refine ⟨⟨?_, ?_⟩, ?_, ?_, ?_, ?_, ?_, ?_⟩
        · rintro ⟨stmt, hmem⟩; simp at hmem
        · rintro ⟨a, b, -, -, -, hb, -⟩; cases hb
        · intro a b _ _ _ hb; cases hb
        · intro h; cases h
        · intro a ha h; cases ha; exact absurd h hrange
        · intro a _ _ _ _; rfl
        · intro a b _ _ _ hb; cases hb
        · intro _; simp [Event.status, Event.touchesDB]
      | some pageNum =>
        by_cases hnum : pageNum < 1
        · have htrace : getPlayers intSize api ceilQuotient r =
              [Event.clientMessage 400 (Msg.text "page_num must be greater than 0")] := by
            simp [getPlayers, hps, hpn, hif, hnum]
          rw [htrace]
          refine ⟨⟨?_, ?_⟩, ?_, ?_, ?_, ?_, ?_, ?_⟩
          · rintro ⟨stmt, hmem⟩; simp at hmem
          · rintro ⟨a, b, -, -, -, hb, h3⟩; cases hb; omega
          · intro a b _ _ _ hb h3; cases hb; omega
          · intro h; cases h
          · intro a ha h; cases ha; exact absurd h hrange
          · intro a _ _ _ h; cases h
          · intro a b _ _ _ _ _; rfl
          · intro _; simp [Event.status, Event.touchesDB]
        · have hge : 1 ≤ pageNum := by omega
          have htrace : ∃ rest, getPlayers intSize api ceilQuotient r =
              Event.dbSelect (GetAllStmt intSize pageSize pageNum) :: rest := by
            simp [getPlayers, hps, hpn, hif, hnum, PlayerModel.GetAll]
          obtain ⟨rest, htrace⟩ := htrace
          rw [htrace]
          refine ⟨⟨?_, ?_⟩, ?_, ?_, ?_, ?_, ?_, ?_⟩
          · intro _
            exact ⟨pageSize, pageNum, rfl, hin.1, hin.2, rfl, hge⟩
          · intro _
            exact ⟨GetAllStmt intSize pageSize pageNum, List.mem_cons_self _ _⟩
          · intro a b ha _ _ hb _
            cases ha; cases hb
            exact ⟨rest, rfl⟩
          · intro h; cases h
          · intro a ha h; cases ha; exact absurd h hrange
          · intro a _ _ _ h; cases h
          · intro a b _ _ _ hb h3; cases hb; omega
          · intro hno
            exact absurd ⟨pageSize, pageNum, rfl, hin.1, hin.2, rfl, hge⟩ hno

/-- A run of C6: `page_size=25` and `page_num=0`. -/
theorem getPlayers_validation_witness :
    Atoi 64 ((sampleRequest [("page_size", ["25"]), ("page_num", ["0"])]).URLQuery.Get
        "page_size") = some 25 ∧
      Atoi 64 ((sampleRequest [("page_size", ["25"]), ("page_num", ["0"])]).URLQuery.Get
        "page_num") = some 0 ∧
      getPlayers 64 (sampleAPI sampleDB) sampleCeil
          (sampleRequest [("page_size", ["25"]), ("page_num", ["0"])]) =
        [Event.clientMessage 400 (Msg.text "page_num must be greater than 0")] :=
  ⟨by decide, by decide,
    (getPlayers_validation 64 (sampleAPI sampleDB) sampleCeil
      (sampleRequest [("page_size", ["25"]), ("page_num", ["0"])])).2.2.2.2.2.1 25 0
      (by decide) (by decide) (by decide) (by decide) (by decide)⟩

/-! ## A single player -/

/-- C7: `PlayerModel.Get` returns a player or an error, never both and never
neither: the scanned row and no error when the driver reports none,
`models.ErrNoRecord` and no player when the driver reports `sql.ErrNoRows`,
the driver's error and no player otherwise. For an `id` that parses to an
integer >= 1, getPlayer calls Get and then answers 404 exactly when Get's
error is `ErrNoRecord`, through `serverError` (500) for any other error, and
writes the player otherwise; for an `id` that is not an integer or is < 1 it
answers 400 and Get is not called. -/
theorem getPlayer_contract (intSize : Nat) (api : API) (r : Request) (p : PlayerModel)
    (id : Int) :
    (((p.Get id).2.1.isSome = true ∧ (p.Get id).2.2 = none) ∨
        ((p.Get id).2.1 = none ∧ (p.Get id).2.2.isSome = true)) ∧
      (∀ row, p.DB.Get "SELECT * FROM player WHERE id=$1" id = (row, none) →
        (p.Get id).2 = (some row, none)) ∧
      (∀ row err, p.DB.Get "SELECT * FROM player WHERE id=$1" id = (row, some err) →
        errorsIs err GoError.sqlErrNoRows = true →
        (p.Get id).2 = (none, some GoError.modelsErrNoRecord)) ∧
      (∀ row err, p.DB.Get "SELECT * FROM player WHERE id=$1" id = (row, some err) →
        errorsIs err GoError.sqlErrNoRows = false →
        (p.Get id).2 = (none, some err)) ∧
      (Atoi intSize (r.URLQuery.Get "id") = some id → 1 ≤ id →
        (api.db.Players.Get id).1 <+: getPlayer intSize api r ∧
        (∀ err, (api.db.Players.Get id).2.2 = some err →
          errorsIs err GoError.modelsErrNoRecord = true →
          getPlayer intSize api r =
            [Event.dbGet "SELECT * FROM player WHERE id=$1" id,
              Event.clientMessage 404 (Msg.errorText err)]) ∧
        (∀ err, (api.db.Players.Get id).2.2 = some err →
          errorsIs err GoError.modelsErrNoRecord = false →
          getPlayer intSize api r =
            [Event.dbGet "SELECT * FROM player WHERE id=$1" id, Event.serverError err]) ∧
        ((api.db.Players.Get id).2.2 = none →
          getPlayer intSize api r =
            [Event.dbGet "SELECT * FROM player WHERE id=$1" id,
              Event.writeJSON (Payload.player (api.db.Players.Get id).2.1)]) ∧
        ((getPlayer intSize api r).filterMap Event.status = [404] ↔
          ∃ err, (api.db.Players.Get id).2.2 = some err ∧
            errorsIs err GoError.modelsErrNoRecord = true) ∧
        ((getPlayer intSize api r).filterMap Event.status = [500] ↔
          ∃ err, (api.db.Players.Get id).2.2 = some err ∧
            errorsIs err GoError.modelsErrNoRecord = false)) ∧
      ((Atoi intSize (r.URLQuery.Get "id") = none ∨
          (Atoi intSize (r.URLQuery.Get "id") = some id ∧ id < 1)) →
        getPlayer intSize api r = [Event.clientError 400]) := by
  refine ⟨?_, ?_, ?_, ?_, ?_, ?_⟩
  · unfold PlayerModel.Get
    rcases hgot : (p.DB.Get "SELECT * FROM player WHERE id=$1" id).2 with _ | err
    · simp [hgot]
    · by_cases his : errorsIs err GoError.sqlErrNoRows = true <;> simp [hgot, his]
  · intro row hrow
    simp [PlayerModel.Get, hrow]
  · intro row err hrow his
    simp [PlayerModel.Get, hrow, his]
  · intro row err hrow his
    simp [PlayerModel.Get, hrow, his]
  · intro hid hge
    have hlt : ¬ id < 1 := by omega
    have hshape : getPlayer intSize api r =
        Event.dbGet "SELECT * FROM player WHERE id=$1" id ::
          (match (api.db.Players.Get id).2.2 with
          | some err =>
            if errorsIs err GoError.modelsErrNoRecord then
              [Event.clientMessage 404 (Msg.errorText err)]
            else [Event.serverError err]
          | none => [Event.writeJSON (Payload.player (api.db.Players.Get id).2.1)]) := by
      simp [getPlayer, hid, hlt, PlayerModel.Get]
    rw [hshape]
    refine ⟨⟨_, rfl⟩, ?_, ?_, ?_, ?_, ?_⟩
    · intro err herr his
      simp [herr, his]
    · intro err herr his
      simp [herr, his]
    · intro hnone
      simp [hnone]
    · rcases herr : (api.db.Players.Get id).2.2 with _ | err
      · simp [Event.status]
      · by_cases his : errorsIs err GoError.modelsErrNoRecord = true <;>
          simp [his, Event.status]
    · rcases herr : (api.db.Players.Get id).2.2 with _ | err
      · simp [Event.status]
      · by_cases his : errorsIs err GoError.modelsErrNoRecord = true <;>
          simp [his, Event.status]
  · rintro (hnone | ⟨hid, hlt⟩)
    · simp [getPlayer, hnone]
    · simp [getPlayer, hid, hlt]

/-- A run of C7: `id=5` on a driver that finds no row. -/
theorem getPlayer_contract_witness :
    Atoi 64 ((sampleRequest [("id", ["5"])]).URLQuery.Get "id") = some 5 ∧ (1 : Int) ≤ 5 ∧
      ((sampleAPI emptyDB).db.Players.Get 5).2.2 = some GoError.modelsErrNoRecord ∧
      errorsIs GoError.modelsErrNoRecord GoError.modelsErrNoRecord = true ∧
      getPlayer 64 (sampleAPI emptyDB) (sampleRequest [("id", ["5"])]) =
        [Event.dbGet "SELECT * FROM player WHERE id=$1" 5,
          Event.clientMessage 404 (Msg.errorText GoError.modelsErrNoRecord)] :=
  ⟨by decide, by decide, by decide, by decide,
    ((getPlayer_contract 64 (sampleAPI emptyDB) (sampleRequest [("id", ["5"])])
      (PlayerModel.mk emptyDB) 5).2.2.2.2.1 (by decide) (by decide)).2.1
      GoError.modelsErrNoRecord (by decide) (by decide)⟩

end DDStats
